import Mathlib

/-!
Verification development for the `resume_agent` repository.

The Python sources are shallowly embedded: pure functions become Lean
functions over `String` / `List Char`, dictionaries become association
lists or records, and code that may raise becomes `Except` / `Option`.
Each definition names the source function it embeds.
-/

/-! ### Python string primitives

Helpers mirroring the Python `str` operations the sources use.  They are
defined on `List Char` (with `String` wrappers) so that theorems can be
proved by list induction.  `Char.toLower` agrees with Python's
`str.lower` on the ASCII/Chinese alphabets used by the sources.
-/

/-- Characters treated as whitespace by Python's `str.strip()` (the
ASCII whitespace set, which covers every string the sources strip). -/
def charIsPySpace (c : Char) : Bool :=
  c = ' ' || c = '\t' || c = '\n' || c = '\r' || c = '\x0b' || c = '\x0c'

/-- Characters treated as line boundaries by Python's `str.splitlines`
(ASCII subset; `"\r\n"` is handled as a single boundary separately). -/
def charIsLineBreak (c : Char) : Bool :=
  c = '\n' || c = '\r' || c = '\x0b' || c = '\x0c' ||
  c = '\x1c' || c = '\x1d' || c = '\x1e' || c = '\x85'

/-- `str.strip()` on a character list: drop leading and trailing
whitespace. -/
def pyStripL (l : List Char) : List Char :=
  ((l.dropWhile charIsPySpace).reverse.dropWhile charIsPySpace).reverse

/-- `str.strip()`. -/
def pyStrip (s : String) : String := ⟨pyStripL s.data⟩

/-- Drop one leading `'\n'` if present; used to treat `"\r\n"` as a
single line boundary in `str.splitlines`. -/
def stripLeadingLF : List Char → List Char
  | '\n' :: t => t
  | t => t

/-- `str.splitlines()` on a character list, with explicit fuel so that
the recursion is structural (the `"\r\n"` case consumes two characters
but only one unit of fuel; `l.length` fuel always suffices).  Splits at
line boundaries, treats `"\r\n"` as one boundary, and produces no
trailing empty piece. -/
def pySplitlinesFuel : Nat → List Char → List (List Char)
  | _, [] => []
  | 0, _ :: _ => []
  | fuel + 1, c :: cs =>
    if c = '\r' then
      [] :: pySplitlinesFuel fuel (stripLeadingLF cs)
    else if charIsLineBreak c then
      [] :: pySplitlinesFuel fuel cs
    else
      match pySplitlinesFuel fuel cs with
      | [] => [[c]]
      | p :: ps => (c :: p) :: ps

/-- `str.splitlines()` on a character list. -/
def pySplitlinesL (l : List Char) : List (List Char) :=
  pySplitlinesFuel l.length l

/-- `str.splitlines()`. -/
def pySplitlines (s : String) : List String :=
  (pySplitlinesL s.data).map fun l => ⟨l⟩

/-- `str.split(sep)` for a one-character separator, on character lists:
split at every occurrence, keeping empty pieces (Python semantics). -/
def pySplitCharL (sep : Char) : List Char → List (List Char)
  | [] => [[]]
  | c :: cs =>
    if c = sep then
      [] :: pySplitCharL sep cs
    else
      match pySplitCharL sep cs with
      | [] => [[c]]
      | p :: ps => (c :: p) :: ps

/-- `str.split(sep)` for a one-character separator. -/
def pySplitChar (sep : Char) (s : String) : List String :=
  (pySplitCharL sep s.data).map fun l => ⟨l⟩

/-- `"\n".join(parts)` / joining with a one-character separator. -/
def pyJoinLines (parts : List String) : String :=
  ⟨List.intercalate ['\n'] (parts.map String.data)⟩

/-- `s.startswith(p)`. -/
def strStartsWith (s p : String) : Bool := p.data.isPrefixOf s.data

/-- `s.endswith(p)`. -/
def strEndsWith (s p : String) : Bool := p.data.reverse.isPrefixOf s.data.reverse

/-- `p in s` (substring test). -/
def strContainsSub (s p : String) : Bool :=
  s.data.tails.any fun t => p.data.isPrefixOf t

/-- `str.lower()` (ASCII case folding, which matches Python on the
keywords the sources lower-case). -/
def strLower (s : String) : String := ⟨s.data.map Char.toLower⟩

/-- Case-insensitive substring test, modelling
`re.search(keyword, s, re.IGNORECASE)` for a literal keyword. -/
def containsCI (s p : String) : Bool := strContainsSub (strLower s) (strLower p)

/-- `str.lstrip("#")` followed by `.strip()`, as in the heading parsers. -/
def stripHashes (s : String) : String := pyStrip ⟨s.data.dropWhile (· = '#')⟩

/-! ### Decision maker (`src/resume_agent/decision_maker.py`)

`DecisionState` keeps the three progress booleans plus the template
choice.  LLM chat responses are parsed by `_extract_json` into a Python
`dict`; that value is embedded as a `Json` tree, and the combined
chat-and-parse outcome as `Except String Json` (`Except.error` covers a
chat failure, a response with no `{...}` slice, and `json.loads`
failures — everything the source's `try/except` catches). -/

/-- A JSON value, as produced by `json.loads` in `_extract_json`. -/
inductive Json where
  | null : Json
  | bool (b : Bool) : Json
  | num (n : Int) : Json
  | str (s : String) : Json
  | arr (xs : List Json) : Json
  | obj (kvs : List (String × Json)) : Json

/-- `dict.get(k, d)` on an embedded JSON object. -/
def jGetD (kvs : List (String × Json)) (k : String) (d : Json) : Json :=
  match kvs.find? (fun p => p.1 = k) with
  | some p => p.2
  | none => d

/-- `DecisionState` (decision_maker.py, lines 70-78).  `input_type` is
omitted: the source never reads it.  `template_reason` is kept as a
`Json` value because the source assigns `data.get("template_reason", "")`
without a type check. -/
structure DecisionState where
  has_markdown : Bool
  has_polished_markdown : Bool
  has_output : Bool
  todo_list : List String
  template_id : String
  template_reason : Json

/-- The keys of `RESUME_TEMPLATES` (decision_maker.py, lines 22-67). -/
def resumeTemplateIds : List String := ["classic", "modern", "left-right", "timeline"]

/-- `DecisionMaker._fallback_todo_list` (decision_maker.py, lines 253-261). -/
def fallbackTodoList (s : DecisionState) : List String :=
  (if s.has_markdown then [] else ["run_input_processor"]) ++
  (if s.has_polished_markdown then [] else ["run_text_modifier"]) ++
  (if s.has_output then [] else ["run_resume_generator"])

/-- One force-append step (decision_maker.py, lines 230-233): append
`task` when the given progress flag is still false and the list does not
already contain the task. -/
def forceAppend (flagDone : Bool) (task : String) (l : List String) : List String :=
  if !flagDone && !(l.contains task) then l ++ [task] else l

/-- The post-processing of the LLM's `todo_list`
(decision_maker.py, lines 226-233): strip `run_input_processor` once
markdown exists, then force-append the polish and render tasks if the
corresponding flag is still false and the model omitted them. -/
def postProcessTodo (s : DecisionState) (todo0 : List String) : List String :=
  forceAppend s.has_output "run_resume_generator"
    (forceAppend s.has_polished_markdown "run_text_modifier"
      (if s.has_markdown then todo0.filter (fun t => t ≠ "run_input_processor") else todo0))

/-- Extraction of the `template_id` field
(decision_maker.py, lines 220-222).  `none` is the exception path: a
non-hashable `template_id` (a JSON array or object) makes the membership
test `template_id not in RESUME_TEMPLATES` raise `TypeError`, caught by
the enclosing `except`. -/
def templateFromJson (tid : Json) : Option String :=
  match tid with
  | Json.arr _ => none
  | Json.obj _ => none
  | Json.str t => some (if resumeTemplateIds.contains t then t else "classic")
  | _ => some "classic"

/-- Extraction of the `todo_list` field (decision_maker.py, lines
214-217): default to `[]`, coerce non-lists to `[]`, keep only string
elements. -/
def todoFromJson (kvs : List (String × Json)) : List String :=
  let tlItems :=
    match jGetD kvs "todo_list" (Json.arr []) with
    | Json.arr xs => xs
    | _ => []
  tlItems.filterMap (fun v => match v with | Json.str t => some t | _ => none)

/-- The body of the `try` block in `DecisionMaker._decide_todo_list`
(decision_maker.py, lines 209-238), given the combined outcome of
`self.llm.chat` followed by `_extract_json`.  An `Except.error` outcome
(chat failure or parse failure) lands in the `except` clause and falls
back.  A successful parse of a `{...}` slice is necessarily a JSON
object; other shapes are kept for totality and also fall back (in
Python, `.get` on a non-dict raises `AttributeError`, which is caught). -/
def decideTodoList (s : DecisionState) (parsed : Except String Json) :
    List String × DecisionState :=
  match parsed with
  | Except.error _ => (fallbackTodoList s, s)
  | Except.ok (Json.obj kvs) =>
    match templateFromJson (jGetD kvs "template_id" (Json.str "classic")) with
    | none => (fallbackTodoList s, s)
    | some tidStr =>
      let s1 := { s with
        template_id := tidStr
        template_reason := jGetD kvs "template_reason" (Json.str "") }
      (postProcessTodo s1 (todoFromJson kvs), s1)
  | Except.ok _ => (fallbackTodoList s, s)

/-- `DecisionMaker.decide` / `_decide_todo_list` (decision_maker.py,
lines 89-103 and 138-238).  `llmOutcome = none` is the no-LLM
configuration (`self.llm` is `None`); `some parsed` is the LLM path with
the chat-and-parse outcome `parsed`.  The chosen todo list is recorded
in `state.todo_list` as `decide` does. -/
def plannerDecide (s : DecisionState) (llmOutcome : Option (Except String Json)) :
    List String × DecisionState :=
  let r :=
    match llmOutcome with
    | none => (fallbackTodoList s, s)
    | some parsed => decideTodoList s parsed
  (r.1, { r.2 with todo_list := r.1 })

/-- The three pipeline stages, in the planner's canonical order. -/
inductive Stage where
  | ingest : Stage
  | polish : Stage
  | render : Stage
deriving Repr, DecidableEq

/-- The task name the decision maker uses for each stage. -/
def stageTaskName : Stage → String
  | Stage.ingest => "run_input_processor"
  | Stage.polish => "run_text_modifier"
  | Stage.render => "run_resume_generator"

/-- The progress flag corresponding to each stage. -/
def stageFlag (s : DecisionState) : Stage → Bool
  | Stage.ingest => s.has_markdown
  | Stage.polish => s.has_polished_markdown
  | Stage.render => s.has_output

/-- The canonical stage order: ingest, polish, render. -/
def stageOrder : List Stage := [Stage.ingest, Stage.polish, Stage.render]

theorem fallback_mem_polish (s : DecisionState) (h : s.has_polished_markdown = false) :
    "run_text_modifier" ∈ fallbackTodoList s := by
  simp [fallbackTodoList, h]

theorem fallback_mem_render (s : DecisionState) (h : s.has_output = false) :
    "run_resume_generator" ∈ fallbackTodoList s := by
  simp [fallbackTodoList, h]

theorem fallback_not_mem_ingest (s : DecisionState) (h : s.has_markdown = true) :
    "run_input_processor" ∉ fallbackTodoList s := by
  rcases s with ⟨m, p, o, tl, tid, tr⟩
  simp only at h
  subst h
  cases p <;> cases o <;> simp [fallbackTodoList]

theorem mem_forceAppend_self (f : Bool) (task : String) (l : List String)
    (h : f = false) : task ∈ forceAppend f task l := by
  subst h
  unfold forceAppend
  by_cases hm : task ∈ l
  · have hc : l.contains task = true := List.elem_iff.mpr hm
    simp [hc, hm]
  · have hc : l.contains task = false := by simp [hm]
    simp [hc, hm]

theorem mem_forceAppend_mono (f : Bool) (task x : String) (l : List String)
    (h : x ∈ l) : x ∈ forceAppend f task l := by
  unfold forceAppend
  split <;> simp [h]

theorem not_mem_forceAppend (f : Bool) (task x : String) (l : List String)
    (hx : x ∉ l) (hxt : x ≠ task) : x ∉ forceAppend f task l := by
  unfold forceAppend
  split <;> simp [hx, hxt]

theorem postProcess_mem_polish (s : DecisionState) (todo0 : List String)
    (h : s.has_polished_markdown = false) :
    "run_text_modifier" ∈ postProcessTodo s todo0 := by
  unfold postProcessTodo
  exact mem_forceAppend_mono _ _ _ _ (mem_forceAppend_self _ _ _ h)

theorem postProcess_mem_render (s : DecisionState) (todo0 : List String)
    (h : s.has_output = false) :
    "run_resume_generator" ∈ postProcessTodo s todo0 := by
  unfold postProcessTodo
  exact mem_forceAppend_self _ _ _ h

theorem postProcess_not_mem_ingest (s : DecisionState) (todo0 : List String)
    (h : s.has_markdown = true) :
    "run_input_processor" ∉ postProcessTodo s todo0 := by
  unfold postProcessTodo
  apply not_mem_forceAppend _ _ _ _ _ (by decide)
  apply not_mem_forceAppend _ _ _ _ _ (by decide)
  rw [h]
  simp only [if_true]
  intro hmem
  have := List.of_mem_filter hmem
  simp at this

/-- C1 -- Planner fallback determinism: with no LLM configured, the
decided plan is exactly the stages whose progress flag is still false,
in the fixed order ingest, polish, render, as a pure function of the
three booleans. -/
theorem C1_fallback_plan_deterministic (s : DecisionState) :
    (plannerDecide s none).1 =
      (stageOrder.filter (fun st => stageFlag s st = false)).map stageTaskName := by
  rcases s with ⟨m, p, o, tl, tid, tr⟩
  cases m <;> cases p <;> cases o <;> rfl

/-- C1 witness: the spec's worked example — flags
`{hasMarkdown = true, hasPolished = false, hasOutput = false}` yield the
two-element plan `[polish, render]`. -/
theorem C1_fallback_plan_deterministic_witness :
    (plannerDecide ⟨true, false, false, [], "classic", Json.str ""⟩ none).1 =
      ["run_text_modifier", "run_resume_generator"] := by
  have h := C1_fallback_plan_deterministic ⟨true, false, false, [], "classic", Json.str ""⟩
  simpa using h

theorem decideTodoList_mem_polish (s : DecisionState) (parsed : Except String Json)
    (h : s.has_polished_markdown = false) :
    "run_text_modifier" ∈ (decideTodoList s parsed).1 := by
  rcases parsed with e | j
  · exact fallback_mem_polish s h
  · rcases j with _ | b | n | t | xs | kvs
    · exact fallback_mem_polish s h
    · exact fallback_mem_polish s h
    · exact fallback_mem_polish s h
    · exact fallback_mem_polish s h
    · exact fallback_mem_polish s h
    · unfold decideTodoList
      rcases htid : templateFromJson (jGetD kvs "template_id" (Json.str "classic")) with _ | tidStr <;>
        simp only [htid]
      · exact fallback_mem_polish s h
      · exact postProcess_mem_polish _ _ h

theorem decideTodoList_mem_render (s : DecisionState) (parsed : Except String Json)
    (h : s.has_output = false) :
    "run_resume_generator" ∈ (decideTodoList s parsed).1 := by
  rcases parsed with e | j
  · exact fallback_mem_render s h
  · rcases j with _ | b | n | t | xs | kvs
    · exact fallback_mem_render s h
    · exact fallback_mem_render s h
    · exact fallback_mem_render s h
    · exact fallback_mem_render s h
    · exact fallback_mem_render s h
    · unfold decideTodoList
      rcases htid : templateFromJson (jGetD kvs "template_id" (Json.str "classic")) with _ | tidStr <;>
        simp only [htid]
      · exact fallback_mem_render s h
      · exact postProcess_mem_render _ _ h

/-- C2 -- Planner sufficiency for every LLM response: whatever the
chat-and-parse outcome (a well-formed JSON object, JSON missing the
required keys, or a failure raised while chatting or parsing), `decide`
returns a plan (it is a total function — no failure propagates), and the
plan contains the polish task whenever `has_polished_markdown` is false
and the render task whenever `has_output` is false. -/
theorem C2_planner_sufficiency (s : DecisionState) (o : Option (Except String Json)) :
    (s.has_polished_markdown = false → "run_text_modifier" ∈ (plannerDecide s o).1) ∧
    (s.has_output = false → "run_resume_generator" ∈ (plannerDecide s o).1) := by
  constructor
  · intro h
    rcases o with _ | parsed
    · exact fallback_mem_polish s h
    · exact decideTodoList_mem_polish s parsed h
  · intro h
    rcases o with _ | parsed
    · exact fallback_mem_render s h
    · exact decideTodoList_mem_render s parsed h

/-- C2 witness: a state with both work flags false and a malformed
response (`Except.error`, e.g. a non-JSON chat reply) still yields a
plan containing both the polish and the render task. -/
theorem C2_planner_sufficiency_witness :
    "run_text_modifier" ∈
        (plannerDecide ⟨true, false, false, [], "classic", Json.str ""⟩
          (some (Except.error "no JSON"))).1 ∧
    "run_resume_generator" ∈
        (plannerDecide ⟨true, false, false, [], "classic", Json.str ""⟩
          (some (Except.error "no JSON"))).1 := by
  have h := C2_planner_sufficiency ⟨true, false, false, [], "classic", Json.str ""⟩
    (some (Except.error "no JSON"))
  exact ⟨h.1 rfl, h.2 rfl⟩

/-- C3 -- Idempotent re-ingestion guard: once `has_markdown` is true, no
produced plan contains `run_input_processor` — for every LLM response
(including one that lists the ingestion task) and on the no-LLM fallback
path. -/
theorem C3_no_reingestion (s : DecisionState) (o : Option (Except String Json))
    (h : s.has_markdown = true) :
    "run_input_processor" ∉ (plannerDecide s o).1 := by
  rcases o with _ | parsed
  · exact fallback_not_mem_ingest s h
  · show "run_input_processor" ∉ (decideTodoList s parsed).1
    rcases parsed with e | j
    · exact fallback_not_mem_ingest s h
    · rcases j with _ | b | n | t | xs | kvs
      · exact fallback_not_mem_ingest s h
      · exact fallback_not_mem_ingest s h
      · exact fallback_not_mem_ingest s h
      · exact fallback_not_mem_ingest s h
      · exact fallback_not_mem_ingest s h
      · unfold decideTodoList
        rcases htid : templateFromJson (jGetD kvs "template_id" (Json.str "classic")) with _ | tidStr <;>
          simp only [htid]
        · exact fallback_not_mem_ingest s h
        · exact postProcess_not_mem_ingest _ _ h

/-- C3 witness: with markdown already present, even an LLM response that
explicitly lists `run_input_processor` yields a plan without it. -/
theorem C3_no_reingestion_witness :
    "run_input_processor" ∉
      (plannerDecide ⟨true, false, false, [], "classic", Json.str ""⟩
        (some (Except.ok (Json.obj
          [("todo_list", Json.arr [Json.str "run_input_processor"])])))).1 := by
  exact C3_no_reingestion _ _ rfl

/-! ### Section segmentation (`src/resume_agent/tools/text_modifier.py`)

`TextModifier._parse_sections` splits the document at lines starting
with `#` and names each section via `_identify_section_type`. -/

/-- `TextModifier.SECTION_PATTERNS` (text_modifier.py, lines 54-61):
each regex is an alternation of literal keywords, so matching is a
case-insensitive substring test against any of them. -/
def sectionPatterns : List (String × List String) :=
  [("summary", ["个人简介", "自我评价", "职业概述", "Summary", "Profile", "About", "概述"]),
   ("experience", ["工作经历", "工作经验", "职业经历", "Work Experience", "Experience"]),
   ("projects", ["项目经历", "项目经验", "Projects"]),
   ("education", ["教育背景", "教育经历", "学历", "Education"]),
   ("skills", ["技能", "专业技能", "技术栈", "Skills", "Technical Skills"]),
   ("personal_info", ["个人信息", "基本信息", "联系方式", "Personal Info", "Contact"])]

/-- `TextModifier._identify_section_type` (text_modifier.py, lines
494-499): first pattern whose keywords occur in the title line
(case-insensitively), else `general`. -/
def identifySectionType (titleLine : String) : String :=
  match sectionPatterns.find? (fun p => p.2.any (fun kw => containsCI titleLine kw)) with
  | some p => p.1
  | none => "general"

/-- `ResumeSection` (text_modifier.py, lines 20-25). -/
structure ResumeSection where
  name : String
  content : String
  enhanced_content : String

/-- The accumulation loop of `TextModifier._parse_sections`
(text_modifier.py, lines 465-484), returning each section's name with
its list of lines (the source keeps `current_content` as a list and
joins it with `"\n"` when a section is appended). -/
def parseSectionsChunks (cur : Option String) (content : List String) :
    List String → List (String × List String)
  | [] =>
    match cur with
    | some n => [(n, content)]
    | none => []
  | l :: rest =>
    if strStartsWith l "#" then
      (match cur with
       | some n => [(n, content)]
       | none => []) ++ parseSectionsChunks (some (identifySectionType l)) [l] rest
    else
      parseSectionsChunks cur (content ++ [l]) rest

/-- `TextModifier._parse_sections` (text_modifier.py, lines 460-492). -/
def parseSections (markdownText : String) : List ResumeSection :=
  let chunks := parseSectionsChunks none [] (pySplitChar '\n' markdownText)
  let sections := chunks.map (fun p => ResumeSection.mk p.1 (pyJoinLines p.2) "")
  if sections.isEmpty then [ResumeSection.mk "general" markdownText ""] else sections

theorem parseSectionsChunks_flatten_some (n : String) (content ls : List String) :
    ((parseSectionsChunks (some n) content ls).map Prod.snd).flatten = content ++ ls := by
  induction ls generalizing n content with
  | nil => simp [parseSectionsChunks]
  | cons l rest ih =>
    by_cases hl : strStartsWith l "#"
    · simp [parseSectionsChunks, hl, ih]
    · simp [parseSectionsChunks, hl, ih]

/-- Before the first heading (`cur = none`), the accumulated content is
never emitted: the loop's result does not depend on it.  This is exactly
how `_parse_sections` loses the lines preceding the first heading. -/
theorem parseSectionsChunks_none_content_irrel (content content' : List String)
    (ls : List String) :
    parseSectionsChunks none content ls = parseSectionsChunks none content' ls := by
  induction ls generalizing content content' with
  | nil => rfl
  | cons l rest ih =>
    by_cases hl : strStartsWith l "#"
    · simp [parseSectionsChunks, hl]
    · simp only [parseSectionsChunks, hl]
      simp only [Bool.false_eq_true, if_false]
      exact ih _ _

theorem parseSectionsChunks_flatten_none (ls : List String) :
    ((parseSectionsChunks none [] ls).map Prod.snd).flatten =
      ls.dropWhile (fun l => !strStartsWith l "#") := by
  induction ls with
  | nil => simp [parseSectionsChunks]
  | cons l rest ih =>
    by_cases hl : strStartsWith l "#"
    · simp [parseSectionsChunks, hl, List.dropWhile, parseSectionsChunks_flatten_some]
    · rw [show parseSectionsChunks none [] (l :: rest) = parseSectionsChunks none [l] rest by
          simp [parseSectionsChunks, hl],
        parseSectionsChunks_none_content_irrel [l] []]
      simp [List.dropWhile, hl, ih]

theorem parseSectionsChunks_none_nil (ls : List String)
    (h : ∀ l ∈ ls, strStartsWith l "#" = false) :
    parseSectionsChunks none [] ls = [] := by
  induction ls with
  | nil => rfl
  | cons l rest ih =>
    have hl := h l (by simp)
    rw [show parseSectionsChunks none [] (l :: rest) = parseSectionsChunks none [l] rest by
        simp [parseSectionsChunks, hl],
      parseSectionsChunks_none_content_irrel [l] []]
    exact ih (fun x hx => h x (by simp [hx]))

/-- C4 counterexample: the claim asserts that every line of the original
document belongs to exactly one produced section, but on the document
`"intro\n# T"` the only produced section holds the single line `"# T"`:
the line `"intro"`, which precedes the first heading, is dropped. -/
theorem C4_counterexample :
    ((parseSections "intro\n# T").map
        (fun sec => pySplitChar '\n' sec.content)).flatten = ["# T"] ∧
    "intro" ∈ pySplitChar '\n' "intro\n# T" ∧
    "intro" ∉ (["# T"] : List String) := by
  refine ⟨?_, by decide, by decide⟩
  decide

/-- C4 (amended) -- Section segmentation drops the pre-heading lines:
for every document, the concatenation of the produced sections' line
lists is exactly the suffix of the document's lines starting at the
first heading line (a line starting with `#`, of any level) — so every
line from the first heading on belongs to exactly one section, while
lines before the first heading are dropped whenever a heading exists;
and a document with zero heading lines becomes a single `general`
section holding the whole text. -/
theorem C4_amended_segmentation (md : String) :
    ((parseSectionsChunks none [] (pySplitChar '\n' md)).map Prod.snd).flatten =
      (pySplitChar '\n' md).dropWhile (fun l => !strStartsWith l "#") ∧
    ((∀ l ∈ pySplitChar '\n' md, strStartsWith l "#" = false) →
      parseSections md = [ResumeSection.mk "general" md ""]) := by
  constructor
  · exact parseSectionsChunks_flatten_none _
  · intro h
    unfold parseSections
    rw [parseSectionsChunks_none_nil _ h]
    rfl

/-- C4 witness: instantiating the amended theorem on the heading-free
document `"a\nb"`, which becomes a single `general` section. -/
theorem C4_amended_segmentation_witness :
    parseSections "a\nb" = [ResumeSection.mk "general" "a\nb" ""] :=
  (C4_amended_segmentation "a\nb").2 (by decide)

/-! ### Fallback enhancer (`TextModifier._fallback_enhance`)

text_modifier.py, lines 834-845: strip every line, drop blank lines,
and prefix `"- "` to every line that is not a heading (`#`) and not
already a bullet (`-` or `*`).  `TextModifier.run` (line 147) applies it
to the whole document when no LLM is configured, and
`_enhance_section_with_cot` (line 526) applies it to a section's content
on any chat failure. -/

/-- The line list `[ln.strip() for ln in content.splitlines() if ln.strip()]`
(text_modifier.py, line 836). -/
def fallbackLines (content : String) : List String :=
  ((pySplitlines content).map pyStrip).filter (fun l => l ≠ "")

/-- The loop body of `_fallback_enhance` (text_modifier.py, lines
838-844): keep heading and bullet lines, prefix `"- "` to the rest. -/
def bulletifyLine (line : String) : String :=
  if strStartsWith line "#" then line
  else if strStartsWith line "-" || strStartsWith line "*" then line
  else "- " ++ line

/-- `TextModifier._fallback_enhance` (text_modifier.py, lines 834-845). -/
def fallbackEnhance (content : String) : String :=
  pyJoinLines ((fallbackLines content).map bulletifyLine)

theorem stripLeadingLF_length (t : List Char) : (stripLeadingLF t).length ≤ t.length := by
  cases t with
  | nil => simp [stripLeadingLF]
  | cons c t2 =>
    by_cases h : c = '\n'
    · subst h
      simp [stripLeadingLF]
    · rw [show stripLeadingLF (c :: t2) = c :: t2 by cases t2 <;> simp [stripLeadingLF, h]]

theorem pySplitlinesFuel_succ_cr (f : Nat) (cs : List Char) :
    pySplitlinesFuel (f + 1) ('\r' :: cs) = [] :: pySplitlinesFuel f (stripLeadingLF cs) := rfl

theorem pySplitlinesFuel_succ_break (f : Nat) (c : Char) (cs : List Char)
    (hcr : c ≠ '\r') (hbr : charIsLineBreak c = true) :
    pySplitlinesFuel (f + 1) (c :: cs) = [] :: pySplitlinesFuel f cs := by
  simp only [pySplitlinesFuel]
  rw [if_neg hcr, if_pos hbr]

theorem pySplitlinesFuel_succ_nobreak (f : Nat) (c : Char) (cs : List Char)
    (hcr : c ≠ '\r') (hbr : charIsLineBreak c = false) :
    pySplitlinesFuel (f + 1) (c :: cs) =
      match pySplitlinesFuel f cs with
      | [] => [[c]]
      | p :: ps => (c :: p) :: ps := by
  simp only [pySplitlinesFuel]
  rw [if_neg hcr, if_neg (by simp [hbr])]

theorem pySplitlinesFuel_congr (fuel1 : Nat) :
    ∀ (fuel2 : Nat) (l : List Char), l.length ≤ fuel1 → l.length ≤ fuel2 →
      pySplitlinesFuel fuel1 l = pySplitlinesFuel fuel2 l := by
  induction fuel1 with
  | zero =>
    intro fuel2 l h1 h2
    have hl : l = [] := List.eq_nil_of_length_eq_zero (Nat.le_zero.mp h1)
    subst hl
    cases fuel2 <;> rfl
  | succ f ih =>
    intro fuel2 l h1 h2
    cases l with
    | nil => cases fuel2 <;> rfl
    | cons c cs =>
      cases fuel2 with
      | zero => simp at h2
      | succ f2 =>
        have hcs1 : cs.length ≤ f := by simpa using h1
        have hcs2 : cs.length ≤ f2 := by simpa using h2
        by_cases hcr : c = '\r'
        · subst hcr
          rw [pySplitlinesFuel_succ_cr, pySplitlinesFuel_succ_cr,
            ih f2 (stripLeadingLF cs)
              (Nat.le_trans (stripLeadingLF_length cs) hcs1)
              (Nat.le_trans (stripLeadingLF_length cs) hcs2)]
        · by_cases hbr : charIsLineBreak c
          · rw [pySplitlinesFuel_succ_break f c cs hcr hbr,
              pySplitlinesFuel_succ_break f2 c cs hcr hbr, ih f2 cs hcs1 hcs2]
          · have hbr2 : charIsLineBreak c = false := by simpa using hbr
            rw [pySplitlinesFuel_succ_nobreak f c cs hcr hbr2,
              pySplitlinesFuel_succ_nobreak f2 c cs hcr hbr2, ih f2 cs hcs1 hcs2]

theorem pySplitlinesFuel_stable (l : List Char) (fuel : Nat) (h : l.length ≤ fuel) :
    pySplitlinesFuel fuel l = pySplitlinesL l :=
  pySplitlinesFuel_congr fuel l.length l h (Nat.le_refl _)

theorem pySplitlinesL_cons_cr (cs : List Char) :
    pySplitlinesL ('\r' :: cs) = [] :: pySplitlinesL (stripLeadingLF cs) := by
  show pySplitlinesFuel (cs.length + 1) ('\r' :: cs) = _
  rw [pySplitlinesFuel_succ_cr,
    pySplitlinesFuel_stable _ _ (stripLeadingLF_length cs)]

theorem pySplitlinesL_cons_break (c : Char) (cs : List Char)
    (hcr : c ≠ '\r') (hbr : charIsLineBreak c = true) :
    pySplitlinesL (c :: cs) = [] :: pySplitlinesL cs := by
  show pySplitlinesFuel (cs.length + 1) (c :: cs) = _
  rw [pySplitlinesFuel_succ_break _ _ _ hcr hbr]
  rfl

theorem pySplitlinesL_cons_nobreak (c : Char) (cs : List Char)
    (hbr : charIsLineBreak c = false) :
    pySplitlinesL (c :: cs) =
      match pySplitlinesL cs with
      | [] => [[c]]
      | p :: ps => (c :: p) :: ps := by
  have hcr : c ≠ '\r' := by
    intro h
    subst h
    simp [charIsLineBreak] at hbr
  show pySplitlinesFuel (cs.length + 1) (c :: cs) = _
  rw [pySplitlinesFuel_succ_nobreak _ _ _ hcr hbr]
  rfl

theorem pySplitlinesFuel_no_break (fuel : Nat) :
    ∀ (l : List Char), ∀ p ∈ pySplitlinesFuel fuel l, ∀ c ∈ p, charIsLineBreak c = false := by
  induction fuel with
  | zero =>
    intro l
    cases l <;> simp [pySplitlinesFuel]
  | succ f ih =>
    intro l p hp
    cases l with
    | nil => simp [pySplitlinesFuel] at hp
    | cons c cs =>
      by_cases hcr : c = '\r'
      · subst hcr
        rw [pySplitlinesFuel_succ_cr] at hp
        rcases List.mem_cons.mp hp with h | h
        · subst h; simp
        · exact ih _ p h
      · by_cases hbr : charIsLineBreak c
        · rw [pySplitlinesFuel_succ_break f c cs hcr hbr] at hp
          rcases List.mem_cons.mp hp with h | h
          · subst h; simp
          · exact ih _ p h
        · have hbr2 : charIsLineBreak c = false := by simpa using hbr
          rw [pySplitlinesFuel_succ_nobreak f c cs hcr hbr2] at hp
          rcases heq : pySplitlinesFuel f cs with _ | ⟨q, qs⟩
          · rw [heq] at hp
            simp at hp
            subst hp
            intro d hd
            simp at hd
            subst hd
            simpa using hbr
          · rw [heq] at hp
            rcases List.mem_cons.mp hp with h | h
            · subst h
              intro d hd
              rcases List.mem_cons.mp hd with h2 | h2
              · subst h2; simpa using hbr
              · exact ih cs q (by rw [heq]; simp) d h2
            · exact ih cs p (by rw [heq]; simp [h])

theorem pySplitlinesL_no_break (l : List Char) :
    ∀ p ∈ pySplitlinesL l, ∀ c ∈ p, charIsLineBreak c = false :=
  pySplitlinesFuel_no_break l.length l

theorem pySplitlinesL_single (l : List Char) (hne : l ≠ [])
    (h : ∀ c ∈ l, charIsLineBreak c = false) : pySplitlinesL l = [l] := by
  induction l with
  | nil => exact absurd rfl hne
  | cons c cs ih =>
    have hbr : charIsLineBreak c = false := h c (by simp)
    rw [pySplitlinesL_cons_nobreak c cs hbr]
    cases cs with
    | nil => rfl
    | cons d ds =>
      rw [ih (by simp) (fun x hx => h x (by simp [hx]))]

theorem pySplitlinesL_append_newline (p t : List Char)
    (hp : ∀ c ∈ p, charIsLineBreak c = false) :
    pySplitlinesL (p ++ '\n' :: t) = p :: pySplitlinesL t := by
  induction p with
  | nil =>
    simp only [List.nil_append]
    rw [pySplitlinesL_cons_break '\n' t (by decide) (by decide)]
  | cons c p2 ih =>
    have hbr : charIsLineBreak c = false := hp c (by simp)
    rw [List.cons_append, pySplitlinesL_cons_nobreak c _ hbr,
      ih (fun x hx => hp x (by simp [hx]))]

theorem pySplitlinesL_intercalate (ps : List (List Char))
    (h : ∀ p ∈ ps, p ≠ [] ∧ ∀ c ∈ p, charIsLineBreak c = false) :
    pySplitlinesL (List.intercalate ['\n'] ps) = ps := by
  induction ps with
  | nil => rfl
  | cons p ps ih =>
    cases ps with
    | nil =>
      rw [show List.intercalate ['\n'] [p] = p by simp [List.intercalate]]
      exact pySplitlinesL_single p (h p (by simp)).1 (h p (by simp)).2
    | cons q qs =>
      rw [show List.intercalate ['\n'] (p :: q :: qs) =
            p ++ '\n' :: List.intercalate ['\n'] (q :: qs) by
          simp [List.intercalate, List.intersperse],
        pySplitlinesL_append_newline p _ (h p (by simp)).2,
        ih (fun x hx => h x (by simp [hx]))]

theorem pySplitlines_pyJoinLines (parts : List String)
    (h : ∀ p ∈ parts, p ≠ "" ∧ ∀ c ∈ p.data, charIsLineBreak c = false) :
    pySplitlines (pyJoinLines parts) = parts := by
  unfold pySplitlines pyJoinLines
  rw [show (String.mk (List.intercalate ['\n'] (parts.map String.data))).data
        = List.intercalate ['\n'] (parts.map String.data) from rfl]
  rw [pySplitlinesL_intercalate]
  · rw [List.map_map]
    rw [show ((fun l => (⟨l⟩ : String)) ∘ String.data) = id from funext (fun s => rfl),
      List.map_id]
  · intro p hp
    rcases List.mem_map.mp hp with ⟨q, hq, rfl⟩
    refine ⟨fun hnil => (h q hq).1 ?_, (h q hq).2⟩
    calc q = ⟨q.data⟩ := rfl
    _ = "" := by rw [hnil]

theorem dropWhile_head?_false {p : Char → Bool} :
    ∀ (l : List Char) (c : Char), (l.dropWhile p).head? = some c → p c = false := by
  intro l
  induction l with
  | nil =>
    intro c hc
    simp [List.dropWhile] at hc
  | cons d ds ih =>
    intro c hc
    by_cases hd : p d
    · rw [List.dropWhile_cons_of_pos hd] at hc
      exact ih c hc
    · rw [List.dropWhile_cons_of_neg hd] at hc
      simp at hc
      rw [← hc]
      simpa using hd

theorem dropWhile_eq_self_of_head? {p : Char → Bool} (l : List Char)
    (h : ∀ c, l.head? = some c → p c = false) : l.dropWhile p = l := by
  cases l with
  | nil => rfl
  | cons c cs =>
    have hc : p c = false := h c rfl
    simp [List.dropWhile, hc]

theorem pyStripL_subset (l : List Char) : ∀ c ∈ pyStripL l, c ∈ l := by
  intro c hc
  unfold pyStripL at hc
  rw [List.mem_reverse] at hc
  have h1 := (List.dropWhile_sublist charIsPySpace).mem hc
  rw [List.mem_reverse] at h1
  exact (List.dropWhile_sublist charIsPySpace).mem h1

theorem pyStripL_getLast?_not_space (l : List Char) (c : Char)
    (h : (pyStripL l).getLast? = some c) : charIsPySpace c = false := by
  unfold pyStripL at h
  rw [List.getLast?_reverse] at h
  exact dropWhile_head?_false _ c h

theorem pyStripL_head?_not_space (l : List Char) (c : Char)
    (h : (pyStripL l).head? = some c) : charIsPySpace c = false := by
  unfold pyStripL at h
  obtain ⟨w, hw⟩ := List.dropWhile_suffix (l := (l.dropWhile charIsPySpace).reverse)
    (p := charIsPySpace)
  set v := (l.dropWhile charIsPySpace).reverse.dropWhile charIsPySpace with hv
  have hu : v.reverse ++ w.reverse = l.dropWhile charIsPySpace := by
    have h2 := congrArg List.reverse hw
    simpa using h2
  have h3 : (v.reverse ++ w.reverse).head? = some c := by
    cases hvr : v.reverse with
    | nil => rw [hvr] at h; simp at h
    | cons x xs =>
      rw [hvr] at h
      simpa using h
  rw [hu] at h3
  have h4 : (l.dropWhile charIsPySpace).head? = some c := h3
  exact dropWhile_head?_false _ c h4

theorem pyStripL_eq_self (l : List Char)
    (h1 : ∀ c, l.head? = some c → charIsPySpace c = false)
    (h2 : ∀ c, l.getLast? = some c → charIsPySpace c = false) :
    pyStripL l = l := by
  unfold pyStripL
  rw [dropWhile_eq_self_of_head? l h1]
  rw [dropWhile_eq_self_of_head? l.reverse (fun c hc => h2 c (by rwa [List.head?_reverse] at hc))]
  simp

theorem pyStripL_idem (l : List Char) : pyStripL (pyStripL l) = pyStripL l :=
  pyStripL_eq_self (pyStripL l) (pyStripL_head?_not_space l) (pyStripL_getLast?_not_space l)

theorem fallbackLines_props (content : String) :
    ∀ l ∈ fallbackLines content,
      l ≠ "" ∧ (∀ c ∈ l.data, charIsLineBreak c = false) ∧ pyStrip l = l := by
  intro l hl
  unfold fallbackLines at hl
  have hne : l ≠ "" := by
    have := List.of_mem_filter hl
    simpa using this
  have hl2 := List.mem_of_mem_filter hl
  rcases List.mem_map.mp hl2 with ⟨y, hy, rfl⟩
  refine ⟨hne, ?_, ?_⟩
  · intro c hc
    have hcy : c ∈ y.data := pyStripL_subset y.data c hc
    rcases List.mem_map.mp hy with ⟨q, hq, rfl⟩
    exact pySplitlinesL_no_break content.data q hq c hcy
  · show (⟨pyStripL (pyStrip y).data⟩ : String) = pyStrip y
    show (⟨pyStripL (pyStripL y.data)⟩ : String) = pyStrip y
    rw [pyStripL_idem]
    rfl

theorem bulletify_props (l : String)
    (hne : l ≠ "") (hnb : ∀ c ∈ l.data, charIsLineBreak c = false)
    (hst : pyStrip l = l) :
    bulletifyLine l ≠ "" ∧ (∀ c ∈ (bulletifyLine l).data, charIsLineBreak c = false) ∧
      pyStrip (bulletifyLine l) = bulletifyLine l ∧
      bulletifyLine (bulletifyLine l) = bulletifyLine l := by
  have hldata : l.data ≠ [] := by
    intro h0
    exact hne (by calc l = ⟨l.data⟩ := rfl
      _ = "" := by rw [h0])
  have hstL : pyStripL l.data = l.data := congrArg String.data hst
  by_cases h1 : strStartsWith l "#"
  · rw [show bulletifyLine l = l by simp [bulletifyLine, h1]]
    exact ⟨hne, hnb, hst, by simp [bulletifyLine, h1]⟩
  · by_cases h2 : strStartsWith l "-" || strStartsWith l "*"
    · rw [show bulletifyLine l = l by simp [bulletifyLine, h1, h2]]
      exact ⟨hne, hnb, hst, by simp [bulletifyLine, h1, h2]⟩
    · have hx : bulletifyLine l = "- " ++ l := by simp [bulletifyLine, h1, h2]
      have hxdata : (bulletifyLine l).data = '-' :: ' ' :: l.data := by rw [hx]; rfl
      constructor
      · intro h0
        have := congrArg String.data h0
        rw [hxdata] at this
        simp at this
      constructor
      · intro c hc
        rw [hxdata] at hc
        rcases List.mem_cons.mp hc with h | h
        · subst h; decide
        rcases List.mem_cons.mp h with h | h
        · subst h; decide
        · exact hnb c h
      constructor
      · show (⟨pyStripL (bulletifyLine l).data⟩ : String) = bulletifyLine l
        rw [hxdata, pyStripL_eq_self]
        · calc (⟨'-' :: ' ' :: l.data⟩ : String) = "- " ++ l := rfl
          _ = bulletifyLine l := hx.symm
        · intro c hc
          simp at hc
          subst hc
          decide
        · intro c hc
          rw [List.getLast?_cons_cons,
            show (' ' :: l.data).getLast? = l.data.getLast? from ?_] at hc
          · rw [← hstL] at hc
            exact pyStripL_getLast?_not_space l.data c hc
          · rw [show (' ' :: l.data) = [' '] ++ l.data from rfl,
              List.getLast?_append_of_ne_nil _ hldata]
      · rw [hx]
        have hstart : strStartsWith ("- " ++ l) "-" = true := by
          show List.isPrefixOf "-".data ("- " ++ l).data = true
          rfl
        have hstart2 : strStartsWith ("- " ++ l) "#" = false := by
          show List.isPrefixOf "#".data ("- " ++ l).data = false
          rfl
        simp [bulletifyLine, hstart, hstart2]

theorem fallbackEnhance_lines (content : String) :
    pySplitlines (fallbackEnhance content) = (fallbackLines content).map bulletifyLine := by
  unfold fallbackEnhance
  apply pySplitlines_pyJoinLines
  intro p hp
  rcases List.mem_map.mp hp with ⟨l, hl, rfl⟩
  obtain ⟨hne, hnb, hst⟩ := fallbackLines_props content l hl
  obtain ⟨b1, b2, _, _⟩ := bulletify_props l hne hnb hst
  exact ⟨b1, b2⟩

/-- C7 counterexample: the claim says heading lines are left untouched,
but `_fallback_enhance` strips every line, so the one-line document
`"# T "` (a heading with a trailing space) is rewritten to `"# T"`,
not left as `"# T "`. -/
theorem C7_counterexample :
    fallbackEnhance "# T " = "# T" ∧ fallbackEnhance "# T " ≠ "# T " := by
  constructor <;> decide

/-- C7 (amended) -- Bullet-ification fallback with stripping: for every
section content string, the fallback's output lines are exactly the
input's lines after stripping surrounding whitespace and dropping blank
lines, where each stripped line that starts with `#` (heading) or with
`-`/`*` (bullet) is kept as its stripped self and every other line is
prefixed with `"- "`.  (The original claim's "left untouched" fails:
lines are whitespace-stripped and blank lines are removed.) -/
theorem C7_amended_bulletification (content : String) :
    pySplitlines (fallbackEnhance content) =
      (((pySplitlines content).map pyStrip).filter (fun l => l ≠ "")).map bulletifyLine :=
  fallbackEnhance_lines content

/-- C10 -- Bullet-ification is idempotent: applying the no-LLM fallback
enhancer twice yields the same result as applying it once, for every
input string; re-running the polish stage without an LLM never degrades
or duplicates content. -/
theorem C10_fallback_idempotent (content : String) :
    fallbackEnhance (fallbackEnhance content) = fallbackEnhance content := by
  have props : ∀ x ∈ (fallbackLines content).map bulletifyLine,
      x ≠ "" ∧ pyStrip x = x ∧ bulletifyLine x = x := by
    intro x hx
    rcases List.mem_map.mp hx with ⟨l, hl, rfl⟩
    obtain ⟨hne, hnb, hst⟩ := fallbackLines_props content l hl
    obtain ⟨b1, _, b3, b4⟩ := bulletify_props l hne hnb hst
    exact ⟨b1, b3, b4⟩
  have h2 : fallbackLines (fallbackEnhance content) =
      (fallbackLines content).map bulletifyLine := by
    unfold fallbackLines
    rw [show pySplitlines (fallbackEnhance content) =
        (fallbackLines content).map bulletifyLine from fallbackEnhance_lines content]
    rw [show ((fallbackLines content).map bulletifyLine).map pyStrip =
        ((fallbackLines content).map bulletifyLine).map id from
      List.map_eq_map_iff.mpr (fun x hx => (props x hx).2.1)]
    rw [List.map_id]
    exact List.filter_eq_self.mpr (fun x hx => by simp [(props x hx).1])
  show pyJoinLines ((fallbackLines (fallbackEnhance content)).map bulletifyLine) = _
  rw [h2]
  rw [show ((fallbackLines content).map bulletifyLine).map bulletifyLine =
      ((fallbackLines content).map bulletifyLine).map id from
    List.map_eq_map_iff.mpr (fun x hx => (props x hx).2.2)]
  rw [List.map_id]
  rfl

/-! ### Entry field inference (`ResumeGenerator._parse_item_parts`)

resume_generator.py, lines 1215-1269.  Tokens after the entry name are
classified as dates or degrees by regex/keyword tests; the first
unclassified token fills the single positional slot. -/

/-- `re.search(r'\d{4}', s)`: four consecutive digits anywhere. -/
def hasFourDigits : List Char → Bool
  | d1 :: d2 :: d3 :: d4 :: rest =>
    (d1.isDigit && d2.isDigit && d3.isDigit && d4.isDigit) ||
      hasFourDigits (d2 :: d3 :: d4 :: rest)
  | _ => false

/-- `re.search(r'\d{1,2}月', s)`: a match exists iff some digit
immediately precedes `'月'`. -/
def hasDigitBeforeYue : List Char → Bool
  | d :: y :: rest => (d.isDigit && y = '月') || hasDigitBeforeYue (y :: rest)
  | _ => false

/-- `re.search(r'\d{1,2}/\d{4}', s)`: a match exists iff some digit
immediately precedes `'/'` followed by four digits. -/
def hasDigitSlashYear : List Char → Bool
  | d :: s :: r1 :: r2 :: r3 :: r4 :: rest =>
    (d.isDigit && s = '/' && r1.isDigit && r2.isDigit && r3.isDigit && r4.isDigit) ||
      hasDigitSlashYear (s :: r1 :: r2 :: r3 :: r4 :: rest)
  | _ => false

/-- `is_date` (resume_generator.py, lines 1223-1230): any of the three
date patterns matches (all searched case-insensitively). -/
def isDate (s : String) : Bool :=
  hasFourDigits s.data ||
  containsCI s "至今" || containsCI s "present" || containsCI s "current" ||
  hasDigitBeforeYue s.data || hasDigitSlashYear s.data

/-- The degree keyword list of `is_degree`
(resume_generator.py, line 1234). -/
def degreeKeywords : List String :=
  ["本科", "硕士", "博士", "学士", "bachelor", "master", "phd", "mba", "专科", "高中"]

/-- `is_degree` (resume_generator.py, lines 1232-1235): some keyword is
a substring of the lower-cased token. -/
def isDegree (s : String) : Bool :=
  degreeKeywords.any (fun d => strContainsSub (strLower s) d)

/-- `result[k]` read on the embedded fixed-key dict. -/
def dictGet (d : List (String × String)) (k : String) (dflt : String) : String :=
  match d.find? (fun p => p.1 = k) with
  | some p => p.2
  | none => dflt

/-- `result[k] = v` on the embedded fixed-key dict. -/
def dictSet : List (String × String) → String → String → List (String × String)
  | [], k, v => [(k, v)]
  | (k2, v2) :: rest, k, v =>
    if k2 = k then (k, v) :: rest else (k2, v2) :: dictSet rest k v

/-- `ResumeGenerator._parse_item_parts` (resume_generator.py, lines
1215-1269): classify each token after the entry name as a date (or, for
education, a degree) if the slot is still empty, otherwise let it fill
the first empty positional slot. -/
def parseItemParts (sectionOpt : Option String) (parts : List String) :
    List (String × String) :=
  if sectionOpt = some "experience" then
    (parts.drop 1).foldl
      (fun r p =>
        if isDate p && dictGet r "date" "" = "" then dictSet r "date" p
        else if dictGet r "position" "" = "" then dictSet r "position" p
        else r)
      [("company", parts.headD ""), ("position", ""), ("date", "")]
  else if sectionOpt = some "projects" then
    (parts.drop 1).foldl
      (fun r p =>
        if isDate p && dictGet r "date" "" = "" then dictSet r "date" p
        else if dictGet r "role" "" = "" then dictSet r "role" p
        else r)
      [("name", parts.headD ""), ("role", ""), ("date", "")]
  else if sectionOpt = some "education" then
    (parts.drop 1).foldl
      (fun r p =>
        if isDate p && dictGet r "date" "" = "" then dictSet r "date" p
        else if isDegree p && dictGet r "degree" "" = "" then dictSet r "degree" p
        else if dictGet r "major" "" = "" then dictSet r "major" p
        else r)
      [("school", parts.headD ""), ("date", ""), ("major", ""), ("degree", "")]
  else []

/-- C5 counterexample: the claim's general order-independence condition
("at most one date token and at most one degree token") is satisfied by
the token lists `["Senior Engineer", "Team Lead"]` and its permutation
(zero date tokens, zero degree tokens), yet the two orders parse
differently: the first unclassified token wins the single position slot,
so the position is "Senior Engineer" in one order and "Team Lead" in the
other. -/
theorem C5_counterexample :
    parseItemParts (some "experience") ["ACME Corp", "Senior Engineer", "Team Lead"] ≠
      parseItemParts (some "experience") ["ACME Corp", "Team Lead", "Senior Engineer"] ∧
    ["Senior Engineer", "Team Lead"].countP (fun t => isDate t) ≤ 1 ∧
    ["Senior Engineer", "Team Lead"].countP (fun t => isDegree t) ≤ 1 := by
  refine ⟨by decide, by decide, by decide⟩

/-- C5 (amended) -- Field-inference order independence holds for the
spec's example, and in general only when each slot has at most one
candidate: for an experience entry, the two example token lists parse to
the identical record, and swapping one date token with one non-date
token after the company name never changes the parsed record; but with
two or more tokens that are neither dates nor degrees, the first one in
source order fills the single position slot, so permuting them can
change the result. -/
theorem C5_amended_order_independence :
    (parseItemParts (some "experience") ["ACME Corp", "2020-2022", "Senior Engineer"] =
        parseItemParts (some "experience") ["ACME Corp", "Senior Engineer", "2020-2022"] ∧
      parseItemParts (some "experience") ["ACME Corp", "2020-2022", "Senior Engineer"] =
        [("company", "ACME Corp"), ("position", "Senior Engineer"), ("date", "2020-2022")]) ∧
    (∀ (c a b : String), isDate a = true → isDate b = false →
      parseItemParts (some "experience") [c, a, b] =
        parseItemParts (some "experience") [c, b, a]) := by
  refine ⟨⟨by decide, by decide⟩, ?_⟩
  intro c a b ha hb
  simp [parseItemParts, dictGet, dictSet, List.find?, ha, hb]

/-- C5 witness: the amended swap theorem applied at the spec's example
tokens, with the date/non-date side conditions checked concretely. -/
theorem C5_amended_order_independence_witness :
    isDate "2020-2022" = true ∧ isDate "Senior Engineer" = false ∧
    parseItemParts (some "experience") ["ACME Corp", "2020-2022", "Senior Engineer"] =
      parseItemParts (some "experience") ["ACME Corp", "Senior Engineer", "2020-2022"] :=
  ⟨by decide, by decide,
    C5_amended_order_independence.2 "ACME Corp" "2020-2022" "Senior Engineer"
      (by decide) (by decide)⟩

/-! ### Markdown entry parsing (`ResumeGenerator._parse_markdown_to_builder`)

resume_generator.py, lines 1080-1213.  The entry loop (lines 1138-1213)
is embedded as a fold of `processLine` over the document's lines,
followed by one final save.  The builder records the arguments passed to
`MagicResumeBuilder.add_education` / `add_experience` / `add_project` /
`set_skills`; the `add_*` methods additionally stamp a fresh id and pass
the details text through `markdown_to_html`, which only re-encodes the
description and is not modelled (no claim depends on it).  The
basic-info preprocessing loop (lines 1100-1136) only fills
`builder.basic` and is likewise not needed by any claim. -/

/-- Arguments of `MagicResumeBuilder.add_experience` as recorded by
`_save_current_item`. -/
structure SavedExp where
  company : String
  position : String
  date : String
  details : String
deriving DecidableEq

/-- Arguments of `MagicResumeBuilder.add_project`. -/
structure SavedProj where
  name : String
  role : String
  date : String
  description : String
deriving DecidableEq

/-- Arguments of `MagicResumeBuilder.add_education`. -/
structure SavedEdu where
  school : String
  degree : String
  major : String
  startDate : String
  endDate : String
  description : String
deriving DecidableEq

/-- The entry lists accumulated by the builder during markdown parsing. -/
structure BuilderLists where
  education : List SavedEdu
  experience : List SavedExp
  projects : List SavedProj
  skills : String
deriving DecidableEq

def emptyBuilder : BuilderLists := ⟨[], [], [], ""⟩

/-- `"\n".join([f"- {c}" for c in content if c])`
(resume_generator.py, line 1282). -/
def contentStr (content : List String) : String :=
  pyJoinLines ((content.filter (fun c => c ≠ "")).map (fun c => "- " ++ c))

/-- `s.take n` as Python slicing `s[:n]`. -/
def strTake (s : String) (n : Nat) : String := ⟨s.data.take n⟩

/-- Match exactly four digits at the front, returning them and the rest. -/
def parseYear4 : List Char → Option (String × List Char)
  | a :: b :: c :: d :: rest =>
    if a.isDigit && b.isDigit && c.isDigit && d.isDigit then
      some (⟨[a, b, c, d]⟩, rest)
    else none
  | _ => none

/-- Match a literal (ASCII case-insensitively) at the front, returning
the matched slice of the input. -/
def matchLitCI (lit : String) (l : List Char) : Option String :=
  if (l.take lit.data.length).map Char.toLower = lit.data then some ⟨l.take lit.data.length⟩
  else none

/-- `re.match(r'(\d{4})\s*[-–—]\s*(\d{4}|至今|present|current)', date_str, re.I)`
(resume_generator.py, line 1305): anchored at the start, arbitrary
trailing text, returning the two captured groups. -/
def matchDateRange (s : String) : Option (String × String) :=
  match parseYear4 s.data with
  | none => none
  | some (y1, rest1) =>
    match rest1.dropWhile charIsPySpace with
    | [] => none
    | d :: rest3 =>
      if d = '-' || d = '–' || d = '—' then
        let rest4 := rest3.dropWhile charIsPySpace
        match parseYear4 rest4 with
        | some (y2, _) => some (y1, y2)
        | none =>
          match matchLitCI "至今" rest4 with
          | some t => some (y1, t)
          | none =>
            match matchLitCI "present" rest4 with
            | some t => some (y1, t)
            | none =>
              match matchLitCI "current" rest4 with
              | some t => some (y1, t)
              | none => none
      else none

/-- `ResumeGenerator._save_current_item` (resume_generator.py, lines
1271-1321). -/
def saveCurrentItem (b : BuilderLists) (sectionOpt : Option String)
    (item : List (String × String)) (content : List String) : BuilderLists :=
  match sectionOpt with
  | none => b
  | some sec =>
    if item = [] ∧ content = [] then b
    else if sec = "experience" ∧ item ≠ [] then
      { b with experience := b.experience ++
          [⟨dictGet item "company" "", dictGet item "position" "",
            dictGet item "date" "", contentStr content⟩] }
    else if sec = "projects" ∧ item ≠ [] then
      { b with projects := b.projects ++
          [⟨dictGet item "name" "", dictGet item "role" "",
            dictGet item "date" "", contentStr content⟩] }
    else if sec = "education" ∧ item ≠ [] then
      let dateStr := dictGet item "date" ""
      let se : String × String :=
        if dateStr = "" then ("", "")
        else
          match matchDateRange dateStr with
          | some g => g
          | none => (dateStr, "")
      { b with education := b.education ++
          [⟨dictGet item "school" "", dictGet item "degree" "",
            dictGet item "major" "", se.1, se.2, contentStr content⟩] }
    else if sec = "skills" ∧ content ≠ [] then
      { b with skills := contentStr content }
    else b

/-- Section detection for a `## ` heading (resume_generator.py, lines
1149-1167).  The `"经历"` check reads the section that was current
*before* this heading (the source tests `current_section is None` before
reassigning it). -/
def detectSection (prevSection : Option String) (title : String) : String :=
  let t := strLower title
  if strContainsSub t "项目" || strContainsSub t "project" then "projects"
  else if strContainsSub t "教育" || strContainsSub t "education" || strContainsSub t "学历" then "education"
  else if strContainsSub t "工作" || strContainsSub t "experience" || strContainsSub t "职业" then "experience"
  else if strContainsSub t "经历" && prevSection.isNone then "experience"
  else if strContainsSub t "技能" || strContainsSub t "skill" then "skills"
  else if strContainsSub t "简介" || strContainsSub t "summary" || strContainsSub t "profile" || strContainsSub t "about" then "summary"
  else "other"

/-- `[p.strip() for p in s.split("|")]`. -/
def splitPipe (s : String) : List String := (pySplitChar '|' s).map pyStrip

/-- `line.strip("*")` (strip `'*'` from both ends). -/
def stripStars (s : String) : String :=
  ⟨((s.data.dropWhile (· = '*')).reverse.dropWhile (· = '*')).reverse⟩

/-- The loop state of `_parse_markdown_to_builder`
(resume_generator.py, lines 1095-1098). -/
structure MDParseState where
  currentSection : Option String
  currentContent : List String
  currentItem : List (String × String)
  pendingTitle : Option String
  builder : BuilderLists

/-- One iteration of the entry loop of `_parse_markdown_to_builder`
(resume_generator.py, lines 1138-1210), in the source's `elif` order:
`## ` section heading, `### ` entry heading (single-line pipe form or
pending two-line form), pending-title field line, bold `**…|…**` entry
line, bullet line, skills content line. -/
def processLine (st : MDParseState) (rawLine : String) : MDParseState :=
  let line := pyStrip rawLine
  if strStartsWith line "## " && !(strStartsWith line "### ") then
    { currentSection := some (detectSection st.currentSection (stripHashes line))
      currentContent := []
      currentItem := []
      pendingTitle := none
      builder := saveCurrentItem st.builder st.currentSection st.currentItem st.currentContent }
  else if strStartsWith line "### " then
    let b2 := saveCurrentItem st.builder st.currentSection st.currentItem st.currentContent
    let titleText := stripHashes line
    if strContainsSub titleText "|" then
      { currentSection := st.currentSection
        currentContent := []
        currentItem := parseItemParts st.currentSection (splitPipe titleText)
        pendingTitle := none
        builder := b2 }
    else
      { currentSection := st.currentSection
        currentContent := []
        currentItem := []
        pendingTitle := some titleText
        builder := b2 }
  else if st.pendingTitle.isSome && strContainsSub line "|" && !(strStartsWith line "#") then
    { st with
        currentItem := parseItemParts st.currentSection ((st.pendingTitle.getD "") :: splitPipe line)
        pendingTitle := none }
  else if strStartsWith line "**" && strContainsSub line "|" && strEndsWith line "**" then
    { st with
        builder := saveCurrentItem st.builder st.currentSection st.currentItem st.currentContent
        currentContent := []
        currentItem := parseItemParts st.currentSection (splitPipe (pyStrip (stripStars line)))
        pendingTitle := none }
  else if strStartsWith line "-" || (strStartsWith line "*" && !(strStartsWith line "**")) then
    let c := pyStrip ⟨(pyStrip ⟨line.data.drop 1⟩).data.dropWhile (· = '*')⟩
    if c ≠ "" then { st with currentContent := st.currentContent ++ [c] } else st
  else if line ≠ "" && st.currentSection = some "skills" then
    { st with currentContent := st.currentContent ++ [line] }
  else st

/-- The entry loop of `ResumeGenerator._parse_markdown_to_builder`
(resume_generator.py, lines 1138-1213): fold over the lines, then save
the final pending entry. -/
def parseMarkdownEntries (md : String) (b0 : BuilderLists) : BuilderLists :=
  let stF := (pySplitChar '\n' md).foldl processLine
    { currentSection := none, currentContent := [], currentItem := [],
      pendingTitle := none, builder := b0 }
  saveCurrentItem stF.builder stF.currentSection stF.currentItem stF.currentContent

/-- C6 counterexample: under the claim, a pipe-containing line that
appears only *after* an intervening bullet line must not be consumed as
the entry's field line, so the entry `### Dev` in the document below
would keep empty position and date.  The code instead leaves the pending
title set across the bullet line and consumes the later line
`"Acme | 2020"` as the field line, yielding position `"Acme"` and date
`"2020"`. -/
theorem C6_counterexample :
    (parseMarkdownEntries "## Experience\n### Dev\n- did stuff\nAcme | 2020"
        emptyBuilder).experience =
      [⟨"Dev", "Acme", "2020", "- did stuff"⟩] := by
  decide

theorem startsWith_hash_of_hh (l : String) (h : strStartsWith l "## " = true) :
    strStartsWith l "#" = true := by
  unfold strStartsWith at h ⊢
  rw [List.isPrefixOf_iff_prefix] at h ⊢
  exact List.IsPrefix.trans (by decide) h

theorem startsWith_hash_of_hhh (l : String) (h : strStartsWith l "### " = true) :
    strStartsWith l "#" = true := by
  unfold strStartsWith at h ⊢
  rw [List.isPrefixOf_iff_prefix] at h ⊢
  exact List.IsPrefix.trans (by decide) h

/-- C6 (amended) -- Pending-title consumption is not restricted to the
immediately following line: when a `### ` entry heading carries only a
title, the remaining fields are supplied by the *first subsequent*
non-heading line containing a pipe that occurs before the next heading —
intervening bullet or description lines without a pipe leave the pending
title in place rather than clearing it, so a pipe-containing line
appearing later *is* consumed as the entry's field line.  Formally:
(1) with a pending title, any non-heading line containing a pipe is
consumed as the field line; (2) any non-heading line without a pipe
leaves the pending title unchanged. -/
theorem C6_amended_pending_consumption :
    (∀ (st : MDParseState) (t : String) (line : String),
      st.pendingTitle = some t →
      strContainsSub (pyStrip line) "|" = true →
      strStartsWith (pyStrip line) "#" = false →
      processLine st line =
        { st with
            currentItem := parseItemParts st.currentSection (t :: splitPipe (pyStrip line))
            pendingTitle := none }) ∧
    (∀ (st : MDParseState) (line : String),
      strContainsSub (pyStrip line) "|" = false →
      strStartsWith (pyStrip line) "#" = false →
      (processLine st line).pendingTitle = st.pendingTitle) := by
  constructor
  · intro st t line hpend hpipe hhash
    have h1 : strStartsWith (pyStrip line) "## " = false := by
      by_contra hc
      rw [startsWith_hash_of_hh _ (by simpa using hc)] at hhash
      exact absurd hhash (by simp)
    have h2 : strStartsWith (pyStrip line) "### " = false := by
      by_contra hc
      rw [startsWith_hash_of_hhh _ (by simpa using hc)] at hhash
      exact absurd hhash (by simp)
    unfold processLine
    rw [hpend]
    simp only [h1, h2, hpipe, hhash, Option.isSome_some, Bool.false_and, Bool.true_and,
      Bool.and_true, Bool.and_false, Bool.not_false, if_false, if_true,
      Bool.false_eq_true, Option.getD_some]
  · intro st line hpipe hhash
    have h1 : strStartsWith (pyStrip line) "## " = false := by
      by_contra hc
      rw [startsWith_hash_of_hh _ (by simpa using hc)] at hhash
      exact absurd hhash (by simp)
    have h2 : strStartsWith (pyStrip line) "### " = false := by
      by_contra hc
      rw [startsWith_hash_of_hhh _ (by simpa using hc)] at hhash
      exact absurd hhash (by simp)
    unfold processLine
    simp only [h1, h2, hpipe, hhash, Bool.false_and, Bool.true_and, Bool.and_true,
      Bool.and_false, Bool.not_false, if_false, if_true, Bool.false_eq_true]
    split
    · split <;> rfl
    · split <;> rfl

/-- C6 witness: the amended step theorem applied at the counterexample's
state — a pending title `"Dev"` with an experience section, hit by the
later field line `"Acme | 2020"`. -/
theorem C6_amended_pending_consumption_witness :
    processLine
        { currentSection := some "experience", currentContent := ["did stuff"],
          currentItem := [], pendingTitle := some "Dev", builder := emptyBuilder }
        "Acme | 2020" =
      { currentSection := some "experience", currentContent := ["did stuff"],
        currentItem := parseItemParts (some "experience")
          ("Dev" :: splitPipe (pyStrip "Acme | 2020")),
        pendingTitle := none, builder := emptyBuilder } :=
  C6_amended_pending_consumption.1
    { currentSection := some "experience", currentContent := ["did stuff"],
      currentItem := [], pendingTitle := some "Dev", builder := emptyBuilder }
    "Dev" "Acme | 2020" rfl (by decide) (by decide)

/-! ### Render targets and visibility
(`MagicResumeDocxBuilder` in magic_resume_builder.py and the HTML body
renderers in resume_generator.py)

Entries of the document model are embedded as records with the fields
the renderers read (`dict.get` with a default corresponds to the record
field).  `html_to_lines` delegates to an optional external HTML parser
(BeautifulSoup) with a regex fallback, so the Word renderers take it as
an abstract parameter — every theorem below holds for any behaviour of
it.  The Word document is abstracted as the ordered list of block
elements the builder emits. -/

/-- An Education entry as read by the renderers. -/
structure EduItem where
  school : String
  major : String
  degree : String
  startDate : String
  endDate : String
  date : String
  gpa : String
  description : String
  visible : Bool
deriving DecidableEq

/-- An Experience entry as read by the renderers. -/
structure ExpItem where
  company : String
  position : String
  date : String
  details : String
  visible : Bool
deriving DecidableEq

/-- A Project entry as read by the renderers. -/
structure ProjItem where
  name : String
  role : String
  date : String
  description : String
  visible : Bool
deriving DecidableEq

/-- `sep.join(xs)`. -/
def strIntercalate (sep : String) (xs : List String) : String :=
  ⟨List.intercalate sep.data (xs.map String.data)⟩

/-- The education date string of `_render_section_items` and
`MagicResumeDocxBuilder.add_education` (resume_generator.py, lines
443-448; magic_resume_builder.py, lines 608-613): the `date` field, else
`"start[:7] - end[:7]"` when either bound exists, else empty. -/
def eduDateStr (e : EduItem) : String :=
  if e.date ≠ "" then e.date
  else if e.startDate = "" ∧ e.endDate = "" then ""
  else (if e.startDate ≠ "" then strTake e.startDate 7 else "") ++ " - " ++
    (if e.endDate ≠ "" then strTake e.endDate 7 else "")

/-- The html parts one visible item contributes in
`ResumeGenerator._render_section_items` (resume_generator.py, lines
467-474). -/
def htmlItemParts (header dateStr content : String) : List String :=
  ["<div class=\"item\">",
   "<div class=\"item-header\"><span class=\"item-title\">" ++ header ++ "</span>"] ++
  (if dateStr ≠ "" then ["<span class=\"item-date\">" ++ dateStr ++ "</span>"] else []) ++
  ["</div>"] ++
  (if content ≠ "" then ["<div class=\"item-content\">" ++ content ++ "</div>"] else []) ++
  ["</div>"]

/-- The `"education"` branch of `_render_section_items`
(resume_generator.py, lines 434-449 and 467-474): skip invisible items,
render the rest. -/
def renderSectionItemsEdu (items : List EduItem) : List String :=
  items.flatMap (fun e =>
    if !e.visible then []
    else htmlItemParts
      (strIntercalate " | " ([e.school, e.degree, e.major].filter (fun p => p ≠ "")))
      (eduDateStr e) e.description)

/-- The `"experience"` branch of `_render_section_items`
(resume_generator.py, lines 451-456 and 467-474). -/
def renderSectionItemsExp (items : List ExpItem) : List String :=
  items.flatMap (fun e =>
    if !e.visible then []
    else htmlItemParts
      (if e.company ≠ "" ∧ e.position ≠ "" then e.company ++ " | " ++ e.position
       else if e.company ≠ "" then e.company else e.position)
      e.date e.details)

/-- The `"projects"` branch of `_render_section_items`
(resume_generator.py, lines 458-463 and 467-474). -/
def renderSectionItemsProj (items : List ProjItem) : List String :=
  items.flatMap (fun e =>
    if !e.visible then []
    else htmlItemParts
      (if e.name ≠ "" ∧ e.role ≠ "" then e.name ++ " | " ++ e.role
       else if e.name ≠ "" then e.name else e.role)
      e.date e.description)

/-- The html of one timeline item (resume_generator.py, lines 592-601). -/
def timelineItemHtml (themeColor header dateStr content : String) : String :=
  "<div class=\"timeline-item\">\n    <div class=\"timeline-dot\" style=\"background-color: " ++
  themeColor ++ ";\"></div>\n    <div class=\"timeline-content\">\n        <div class=\"item-header\">\n            <span class=\"item-date\">" ++
  dateStr ++ "</span>\n            <span class=\"item-title\">" ++ header ++
  "</span>\n        </div>\n        " ++
  (if content ≠ "" then "<div class=\"item-content\">" ++ content ++ "</div>" else "") ++
  "\n    </div>\n</div>"

/-- The timeline education date (resume_generator.py, line 579): the
`date` field, else always the `"start[:7] - end[:7]"` form (the
separator appears even when both bounds are empty). -/
def timelineEduDateStr (e : EduItem) : String :=
  if e.date ≠ "" then e.date
  else (if e.startDate ≠ "" then strTake e.startDate 7 else "") ++ " - " ++
    (if e.endDate ≠ "" then strTake e.endDate 7 else "")

/-- `render_timeline_items` on `"education"` (resume_generator.py, lines
571-580, 592-602). -/
def renderTimelineItemsEdu (themeColor : String) (items : List EduItem) : List String :=
  items.flatMap (fun e =>
    if !e.visible then []
    else [timelineItemHtml themeColor
      (strIntercalate " | " ([e.school, e.degree, e.major].filter (fun p => p ≠ "")))
      (timelineEduDateStr e) e.description])

/-- `render_timeline_items` on `"experience"` (resume_generator.py,
lines 581-584): the header joins company and position unconditionally. -/
def renderTimelineItemsExp (themeColor : String) (items : List ExpItem) : List String :=
  items.flatMap (fun e =>
    if !e.visible then []
    else [timelineItemHtml themeColor (e.company ++ " | " ++ e.position) e.date e.details])

/-- `render_timeline_items` on `"projects"` (resume_generator.py, lines
585-588). -/
def renderTimelineItemsProj (themeColor : String) (items : List ProjItem) : List String :=
  items.flatMap (fun e =>
    if !e.visible then []
    else [timelineItemHtml themeColor (e.name ++ " | " ++ e.role) e.date e.description])

/-- A block element of the Word document. -/
inductive DocxElem where
  | sectionTitle (title : String) : DocxElem
  | itemHeaderTwoCol (left right : String) : DocxElem
  | itemHeaderSingle (left : String) : DocxElem
  | para (text : String) : DocxElem
  | listItem (text : String) : DocxElem
deriving DecidableEq

/-- `_add_item_header` (magic_resume_builder.py, lines 490-526): a
two-column row when a date exists, else a single bold line. -/
def docxItemHeader (left right : String) : DocxElem :=
  if right ≠ "" then DocxElem.itemHeaderTwoCol left right
  else DocxElem.itemHeaderSingle left

/-- The elements one visible education entry contributes in
`MagicResumeDocxBuilder.add_education` (magic_resume_builder.py, lines
597-629). -/
def docxEduItem (htmlToLines : String → List String) (e : EduItem) : List DocxElem :=
  [docxItemHeader
      (strIntercalate "  |  " ([e.school, e.degree, e.major].filter (fun p => p ≠ "")))
      (eduDateStr e)] ++
  (if e.gpa ≠ "" then [DocxElem.para ("GPA: " ++ e.gpa)] else []) ++
  (if e.description ≠ "" then (htmlToLines e.description).map DocxElem.listItem else [])

/-- `MagicResumeDocxBuilder.add_education` (magic_resume_builder.py,
lines 590-629): nothing for an empty list, else the section title
followed by the visible entries' elements. -/
def docxAddEducation (htmlToLines : String → List String) (items : List EduItem) :
    List DocxElem :=
  if items = [] then []
  else DocxElem.sectionTitle "教育经历" ::
    items.flatMap (fun e => if !e.visible then [] else docxEduItem htmlToLines e)

/-- The elements one visible experience entry contributes in
`MagicResumeDocxBuilder.add_experience` (magic_resume_builder.py, lines
638-652). -/
def docxExpItem (htmlToLines : String → List String) (e : ExpItem) : List DocxElem :=
  [docxItemHeader
      (if e.company ≠ "" ∧ e.position ≠ "" then e.company ++ "  |  " ++ e.position
       else if e.company ≠ "" then e.company else e.position)
      e.date] ++
  (if e.details ≠ "" then (htmlToLines e.details).map DocxElem.listItem else [])

/-- `MagicResumeDocxBuilder.add_experience` (magic_resume_builder.py,
lines 631-652). -/
def docxAddExperience (htmlToLines : String → List String) (items : List ExpItem) :
    List DocxElem :=
  if items = [] then []
  else DocxElem.sectionTitle "工作经验" ::
    items.flatMap (fun e => if !e.visible then [] else docxExpItem htmlToLines e)

/-- The elements one visible project entry contributes in
`MagicResumeDocxBuilder.add_projects` (magic_resume_builder.py, lines
661-675). -/
def docxProjItem (htmlToLines : String → List String) (e : ProjItem) : List DocxElem :=
  [docxItemHeader
      (if e.name ≠ "" ∧ e.role ≠ "" then e.name ++ "  |  " ++ e.role
       else if e.name ≠ "" then e.name else e.role)
      e.date] ++
  (if e.description ≠ "" then (htmlToLines e.description).map DocxElem.listItem else [])

/-- `MagicResumeDocxBuilder.add_projects` (magic_resume_builder.py,
lines 654-675). -/
def docxAddProjects (htmlToLines : String → List String) (items : List ProjItem) :
    List DocxElem :=
  if items = [] then []
  else DocxElem.sectionTitle "项目经历" ::
    items.flatMap (fun e => if !e.visible then [] else docxProjItem htmlToLines e)

/-- The entry lists of the Magic Resume JSON document model.
`MagicResumeBuilder.build` (magic_resume_builder.py, lines 402-405)
returns `self.data` unchanged apart from the `updatedAt` timestamp, and
`to_json` serializes that value in full — no entry is filtered. -/
structure MagicResumeData where
  education : List EduItem
  experience : List ExpItem
  projects : List ProjItem
  skillContent : String
deriving DecidableEq

/-- `MagicResumeBuilder.build` restricted to the entry lists (the
timestamp update does not touch them). -/
def magicBuildEntries (d : MagicResumeData) : MagicResumeData := d

theorem flatMap_skip_invisible {α β : Type} (vis : α → Bool) (f : α → List β) :
    ∀ l : List α,
      l.flatMap (fun e => if !vis e then [] else f e) = (l.filter vis).flatMap f := by
  intro l
  induction l with
  | nil => rfl
  | cons a t ih =>
    simp only [List.flatMap_cons, List.filter_cons]
    simp only [Bool.not_eq_true'] at ih ⊢
    by_cases ha : vis a
    · rw [ha]
      simp [ih]
    · have ha2 : vis a = false := by simpa using ha
      rw [ha2]
      simp [ih]

/-- C8 -- Visibility filtering: entries with `visible = false` are
retained in the structured JSON data (the build step passes the entry
lists through unfiltered), but contribute nothing to the rendered Word
document or HTML body: in each of the nine per-section renderers (Word
education/experience/projects, single-column HTML items, timeline HTML
items) the output is exactly the concatenation of the renderings of the
*visible* entries — no paragraph, header, date, or bullet derives from
an invisible entry, for every input document model. -/
theorem C8_visibility_filtering (d : MagicResumeData)
    (htmlToLines : String → List String) (themeColor : String)
    (edus : List EduItem) (exps : List ExpItem) (projs : List ProjItem) :
    (magicBuildEntries d).education = d.education ∧
    (magicBuildEntries d).experience = d.experience ∧
    (magicBuildEntries d).projects = d.projects ∧
    renderSectionItemsEdu edus = (edus.filter (fun e => e.visible)).flatMap
      (fun e => htmlItemParts
        (strIntercalate " | " ([e.school, e.degree, e.major].filter (fun p => p ≠ "")))
        (eduDateStr e) e.description) ∧
    renderSectionItemsExp exps = (exps.filter (fun e => e.visible)).flatMap
      (fun e => htmlItemParts
        (if e.company ≠ "" ∧ e.position ≠ "" then e.company ++ " | " ++ e.position
         else if e.company ≠ "" then e.company else e.position)
        e.date e.details) ∧
    renderSectionItemsProj projs = (projs.filter (fun e => e.visible)).flatMap
      (fun e => htmlItemParts
        (if e.name ≠ "" ∧ e.role ≠ "" then e.name ++ " | " ++ e.role
         else if e.name ≠ "" then e.name else e.role)
        e.date e.description) ∧
    renderTimelineItemsEdu themeColor edus = (edus.filter (fun e => e.visible)).flatMap
      (fun e => [timelineItemHtml themeColor
        (strIntercalate " | " ([e.school, e.degree, e.major].filter (fun p => p ≠ "")))
        (timelineEduDateStr e) e.description]) ∧
    renderTimelineItemsExp themeColor exps = (exps.filter (fun e => e.visible)).flatMap
      (fun e => [timelineItemHtml themeColor (e.company ++ " | " ++ e.position)
        e.date e.details]) ∧
    renderTimelineItemsProj themeColor projs = (projs.filter (fun e => e.visible)).flatMap
      (fun e => [timelineItemHtml themeColor (e.name ++ " | " ++ e.role)
        e.date e.description]) ∧
    docxAddEducation htmlToLines edus =
      (if edus = [] then [] else DocxElem.sectionTitle "教育经历" ::
        (edus.filter (fun e => e.visible)).flatMap (docxEduItem htmlToLines)) ∧
    docxAddExperience htmlToLines exps =
      (if exps = [] then [] else DocxElem.sectionTitle "工作经验" ::
        (exps.filter (fun e => e.visible)).flatMap (docxExpItem htmlToLines)) ∧
    docxAddProjects htmlToLines projs =
      (if projs = [] then [] else DocxElem.sectionTitle "项目经历" ::
        (projs.filter (fun e => e.visible)).flatMap (docxProjItem htmlToLines)) := by
  refine ⟨rfl, rfl, rfl, ?_, ?_, ?_, ?_, ?_, ?_, ?_, ?_, ?_⟩
  · exact flatMap_skip_invisible _ _ edus
  · exact flatMap_skip_invisible _ _ exps
  · exact flatMap_skip_invisible _ _ projs
  · exact flatMap_skip_invisible _ _ edus
  · exact flatMap_skip_invisible _ _ exps
  · exact flatMap_skip_invisible _ _ projs
  · unfold docxAddEducation
    split
    · rfl
    · rw [flatMap_skip_invisible]
  · unfold docxAddExperience
    split
    · rfl
    · rw [flatMap_skip_invisible]
  · unfold docxAddProjects
    split
    · rfl
    · rw [flatMap_skip_invisible]

/-! ### Generator entry point (`ResumeGenerator.run`)

resume_generator.py, lines 40-58.  `run` creates the output directory,
writes `resume.md`, lower-cases the requested format and dispatches to
`_generate_magic_json` / `_generate_docx` / `_generate_pdf`, or raises
`ValueError` for any other format.  The three per-format generators are
abstracted as parameters returning the additional `(filename, contents)`
writes they perform and the artifact path they return — the theorem
below holds for every behaviour of them.  The filesystem is modelled as
the ordered list of writes. -/

/-- `GenerateRequest` (resume_generator.py, lines 14-28), restricted to
the fields `run` itself reads. -/
structure GenRequest where
  markdown_text : String
  output_format : String
  candidate_name : String
  template_id : String

/-- `ResumeGenerator.run` (resume_generator.py, lines 40-58). -/
def generatorRun
    (genJson genDocx genPdf : GenRequest → List (String × String) × String)
    (req : GenRequest) : List (String × String) × Except String String :=
  let writes0 := [("resume.md", req.markdown_text)]
  let fmt := strLower req.output_format
  if fmt = "json" then
    ((writes0 ++ (genJson req).1), Except.ok (genJson req).2)
  else if fmt = "docx" ∨ fmt = "word" then
    ((writes0 ++ (genDocx req).1), Except.ok (genDocx req).2)
  else if fmt = "pdf" then
    ((writes0 ++ (genPdf req).1), Except.ok (genPdf req).2)
  else
    (writes0, Except.error ("Unsupported output format: " ++ fmt))

/-- C9 -- resume.md is always written first; unsupported formats raise
afterwards: for every generation request (and every behaviour of the
per-format generators), the write trace contains `resume.md` with the
request's markdown text; and when the lower-cased format is none of
`json`, `docx`, `word`, `pdf`, the run fails with the unsupported-format
error while `resume.md` has nevertheless been written — the failure is
not atomic with respect to the output directory. -/
theorem C9_resume_md_and_unsupported
    (genJson genDocx genPdf : GenRequest → List (String × String) × String)
    (req : GenRequest) :
    ("resume.md", req.markdown_text) ∈ (generatorRun genJson genDocx genPdf req).1 ∧
    (strLower req.output_format ∉ (["json", "docx", "word", "pdf"] : List String) →
      (generatorRun genJson genDocx genPdf req).2 =
        Except.error ("Unsupported output format: " ++ strLower req.output_format) ∧
      (generatorRun genJson genDocx genPdf req).1 =
        [("resume.md", req.markdown_text)]) := by
  constructor
  · simp only [generatorRun]
    split
    · simp
    · split
      · simp
      · split
        · simp
        · simp
  · intro hn
    have h1 : ¬(strLower req.output_format = "json") := fun h => hn (by simp [h])
    have h2 : ¬(strLower req.output_format = "docx" ∨ strLower req.output_format = "word") := by
      rintro (h | h) <;> exact hn (by simp [h])
    have h3 : ¬(strLower req.output_format = "pdf") := fun h => hn (by simp [h])
    simp only [generatorRun]
    rw [if_neg h1, if_neg h2, if_neg h3]
    exact ⟨rfl, rfl⟩

/-- C9 witness: a request for the unsupported format `"XML"`
(lower-cased to `"xml"`) fails with the unsupported-format error, with
`resume.md` already written. -/
theorem C9_resume_md_and_unsupported_witness :
    (generatorRun (fun _ => ([], "resume.json")) (fun _ => ([], "resume.docx"))
        (fun _ => ([], "resume.pdf"))
        ⟨"# Jane", "XML", "Jane", "classic"⟩).2 =
      Except.error ("Unsupported output format: " ++ strLower "XML") ∧
    ("resume.md", "# Jane") ∈
      (generatorRun (fun _ => ([], "resume.json")) (fun _ => ([], "resume.docx"))
        (fun _ => ([], "resume.pdf"))
        ⟨"# Jane", "XML", "Jane", "classic"⟩).1 := by
  have h := C9_resume_md_and_unsupported
    (fun _ => ([], "resume.json")) (fun _ => ([], "resume.docx"))
    (fun _ => ([], "resume.pdf")) ⟨"# Jane", "XML", "Jane", "classic"⟩
  exact ⟨(h.2 (by decide)).1, h.1⟩
